import Mathlib

/-!
Shallow embedding of the network-call interception and span-lifecycle engine
of the tomo-client-telemetry-sdk repository: the Span Runner
(src/otel/tracing-utils.js), the Fetch Interceptor and the Body Codec
(src/patch-fetch.js).  JavaScript host primitives (JSON.parse, the URL
parser, the original fetch) are passed in as explicit parameters; JavaScript
truthiness of the relevant values is modelled explicitly.
-/

/-- Status codes a span can carry (SpanStatusCode of the OpenTelemetry API). -/
inductive SpanStatus
  | unset
  | ok
  | error
deriving DecidableEq, Repr

/-- An attribute value: the engine only ever emits strings and numbers. -/
inductive AttrVal
  | s (v : String)
  | n (v : Nat)
deriving DecidableEq, Repr

/-- An observable operation performed on a span between creation and end. -/
inductive SpanEvent
  | setAttr (key : String) (value : AttrVal)
  | setStatus (code : SpanStatus)
  | endSpan
deriving DecidableEq, Repr

/-- The outcome of running a callback body inside a span: the value it
returns or the exception it throws, together with the operations it
performed on the span it was handed. -/
structure BodyOutcome (ε α : Type) where
  result : Except ε α
  events : List SpanEvent

/-- Span Runner, async variant (runWithSpan in src/otel/tracing-utils.js).
With no tracer the callback runs against a null span and no span operation
happens.  With a tracer: try returns the callback result; catch sets the
span status to error and rethrows; finally ends the span. -/
def runWithSpan {ε α : Type} (tracerConfigured : Bool) (body : BodyOutcome ε α) :
    Except ε α × List SpanEvent :=
  if tracerConfigured then
    match body.result with
    | Except.ok v =>
        (Except.ok v, body.events ++ [SpanEvent.endSpan])
    | Except.error e =>
        (Except.error e,
         body.events ++ [SpanEvent.setStatus SpanStatus.error, SpanEvent.endSpan])
  else
    (body.result, [])

/-- Span Runner, sync variant (runWithSpanSync in src/otel/tracing-utils.js).
The source duplicates the async logic with plain calls instead of awaits. -/
def runWithSpanSync {ε α : Type} (tracerConfigured : Bool) (body : BodyOutcome ε α) :
    Except ε α × List SpanEvent :=
  if tracerConfigured then
    match body.result with
    | Except.ok v =>
        (Except.ok v, body.events ++ [SpanEvent.endSpan])
    | Except.error e =>
        (Except.error e,
         body.events ++ [SpanEvent.setStatus SpanStatus.error, SpanEvent.endSpan])
  else
    (body.result, [])

/-- Is the second character list an initial segment of the first? -/
def subAt : List Char → List Char → Bool
  | _, [] => true
  | [], _ :: _ => false
  | a :: as, b :: bs => a == b && subAt as bs

/-- JavaScript String.prototype.includes: substring containment. -/
def jsIncludes (s sub : String) : Bool :=
  (List.range (s.toList.length + 1)).any (fun i => subAt (s.toList.drop i) sub.toList)

/-- JavaScript String.prototype.startsWith. -/
def jsStartsWith (s pre : String) : Bool :=
  subAt s.toList pre.toList

/-- A request body value as the Body Codec discriminates it: a string, a
FormData, a URLSearchParams (carrying what its toString method encodes), an
ArrayBuffer, a Blob (carrying its declared MIME type), or anything else
(carrying the result of the typeof operator on it). -/
inductive JSBody
  | str (s : String)
  | formData
  | urlSearchParams (encoded : String)
  | arrayBuffer
  | blob (mime : String)
  | other (typeName : String)
deriving DecidableEq, Repr

/-- JavaScript truthiness of a body value: the empty string is falsy, every
other body shape is an object and hence truthy. -/
def jsBodyTruthy : JSBody → Bool
  | JSBody.str s => s ≠ ""
  | _ => true

/-- The second argument of fetch: method and body (the fields the engine
reads).  Absent fields are none. -/
structure RequestInit where
  method : Option String := none
  body : Option JSBody := none
deriving DecidableEq, Repr

/-- Body Codec, request side (extractRequestBody in src/patch-fetch.js).
jsonParses stands in for the host primitive JSON.parse: it returns true
exactly when parsing succeeds.  Returns the serialized body and its
classified type, both absent when options or options.body is falsy. -/
def extractRequestBody (jsonParses : String → Bool) (options : Option RequestInit) :
    Option String × Option String :=
  match options with
  | none => (none, none)
  | some o =>
    match o.body with
    | none => (none, none)
    | some b =>
      if jsBodyTruthy b then
        match b with
        | JSBody.str s =>
            let type := if jsonParses s then "json" else "string"
            let body := if s.length > 2048 then s.take 2048 ++ "...[truncated]" else s
            (some body, some type)
        | JSBody.formData => (some "[FormData body]", some "formdata")
        | JSBody.urlSearchParams enc => (some enc, some "urlencoded")
        | JSBody.arrayBuffer => (some "[ArrayBuffer body]", some "arraybuffer")
        | JSBody.blob mime => (some ("[Blob: " ++ mime ++ "]"), some "blob")
        | JSBody.other typeName => (some "[unhandled body type]", some typeName)
      else (none, none)

/-- The first argument of fetch: a plain string URL, a request-like object
exposing url and method fields, or a URL instance (which exposes href but
has no url field). -/
inductive FetchInput
  | str (s : String)
  | requestLike (url : String) (method : Option String)
  | urlObject (href : String)
deriving DecidableEq, Repr

/-- The first line of the traced wrapper:
typeof input === string ? input : input.url.  A URL instance has no url
field, so the access yields undefined (none). -/
def resolveInputUrl : FetchInput → Option String
  | FetchInput.str s => some s
  | FetchInput.requestLike url _ => some url
  | FetchInput.urlObject _ => none

/-- Outcome of the host URL constructor, new URL(urlString, base): the
host, pathname and search components, or failure. -/
structure URLParts where
  host : String
  pathname : String
  search : String
deriving DecidableEq, Repr

/-- Method resolution in the traced wrapper:
init?.method || (typeof input === object && input.method) || GET,
with JavaScript truthiness (the empty string is falsy). -/
def resolveMethod (init : Option RequestInit) (input : FetchInput) : String :=
  let fromInput : String :=
    match input with
    | FetchInput.requestLike _ (some m) => if m ≠ "" then m else "GET"
    | _ => "GET"
  match init with
  | some i =>
    match i.method with
    | some m => if m ≠ "" then m else fromInput
    | none => fromInput
  | none => fromInput

/-- Body Codec, query extraction (extractQueryParams in src/patch-fetch.js).
urlParse stands in for the host URL constructor (resolving against the
document origin); its failure is the catch branch.  Returns the search
component including the leading delimiter, or none when absent, falsy or
unparseable. -/
def extractQueryParams (urlParse : String → Option URLParts) (input : FetchInput) :
    Option String :=
  let urlString : Option String :=
    match input with
    | FetchInput.str s => some s
    | FetchInput.requestLike u _ => if u ≠ "" then some u else none
    | FetchInput.urlObject _ => none
  match urlString with
  | none => none
  | some s =>
    if s = "" then none
    else
      match urlParse s with
      | none => none
      | some parts => if parts.search ≠ "" then some parts.search else none

/-- Outcome of a stream read attempt on a response clone. -/
inductive ReadResult
  | ok (s : String)
  | err
deriving DecidableEq, Repr

/-- A fetch response as the engine observes it: the numeric status (none
when res.status is not a number), the declared content type (the empty
string when the header is absent), and the outcomes the host would produce
for reading a fresh clone as JSON (already re-serialized by JSON.stringify)
or as text.  Clones of the same response share these outcomes. -/
structure JSResponse where
  status : Option Nat
  contentType : String
  jsonRead : ReadResult
  textRead : ReadResult
deriving DecidableEq, Repr

/-- Body Codec, response side (setHTTPResponseBody in src/patch-fetch.js),
instrumented with stream identities: the original response carries stream
id origId, res.clone() yields fresh streams origId + 1 and, in the catch
branch, origId + 2.  Returns the httpResponse and httpResponseType
attribute values together with the list of stream ids consumed by reads.
Every failure is handled inside the function; it always returns. -/
def setHTTPResponseBody (res : JSResponse) (origId : Nat) :
    (String × String) × List Nat :=
  if jsIncludes res.contentType "application/json" then
    match res.jsonRead with
    | ReadResult.ok s => ((s, "json"), [origId + 1])
    | ReadResult.err =>
      match res.textRead with
      | ReadResult.ok t => ((t, "text"), [origId + 1, origId + 2])
      | ReadResult.err =>
          (("[unreadable response body]", "unknown"), [origId + 1, origId + 2])
  else if jsStartsWith res.contentType "text/" then
    match res.textRead with
    | ReadResult.ok t => ((t, "text"), [origId + 1])
    | ReadResult.err =>
      match res.textRead with
      | ReadResult.ok t => ((t, "text"), [origId + 1, origId + 2])
      | ReadResult.err =>
          (("[unreadable response body]", "unknown"), [origId + 1, origId + 2])
  else (("", ""), [])

/-- The attribute values setHTTPResponseBody computes for a response. -/
def respBodyAttrs (res : JSResponse) : String × String :=
  (setHTTPResponseBody res 0).1

/-- The unconditional setSpanAttributes call closing setHTTPResponseBody:
httpResponse and httpResponseType are always set, whatever the branch. -/
def respBodyEvents (res : JSResponse) : List SpanEvent :=
  [SpanEvent.setAttr "httpResponse" (AttrVal.s (respBodyAttrs res).1),
   SpanEvent.setAttr "httpResponseType" (AttrVal.s (respBodyAttrs res).2)]

/-- setHttpSpanStatus in src/patch-fetch.js: when res.status is a number,
set the httpStatusCode attribute and mark the span error when the code is
at least 400, ok otherwise. -/
def setHttpSpanStatus (res : JSResponse) : List SpanEvent :=
  match res.status with
  | some code =>
      [SpanEvent.setAttr "httpStatusCode" (AttrVal.n code),
       SpanEvent.setStatus (if code ≥ 400 then SpanStatus.error else SpanStatus.ok)]
  | none => []

/-- An error value thrown by the network primitive, with the fields the
catch handler reads: message and status (none when absent) and the result
of String(err). -/
structure JSError where
  message : Option String
  status : Option Nat
  stringified : String
deriving DecidableEq, Repr

/-- Truthiness of err && err.message: present and nonempty. -/
def jsMsgTruthy (e : JSError) : Bool :=
  match e.message with
  | some m => m ≠ ""
  | none => false

/-- Truthiness of err && err.status: present and nonzero. -/
def jsStatusTruthy (e : JSError) : Bool :=
  match e.status with
  | some n => n ≠ 0
  | none => false

/-- The httpError attribute the catch handler attaches:
err && err.message ? err.message : String(err). -/
def fetchErrorHttpError (e : JSError) : String :=
  match e.message with
  | some m => if m ≠ "" then m else e.stringified
  | none => e.stringified

/-- The httpStatusCode attribute the catch handler attaches:
err && err.status ? err.status : 500. -/
def fetchErrorHttpStatus (e : JSError) : Nat :=
  match e.status with
  | some n => if n ≠ 0 then n else 500
  | none => 500

/-- The catch handler of the traced wrapper: attaches httpError and
httpStatusCode, marks the span status error, and rethrows. -/
def fetchErrorEvents (e : JSError) : List SpanEvent :=
  [SpanEvent.setAttr "httpError" (AttrVal.s (fetchErrorHttpError e)),
   SpanEvent.setAttr "httpStatusCode" (AttrVal.n (fetchErrorHttpStatus e)),
   SpanEvent.setStatus SpanStatus.error]

/-- The attributes object passed to runWithSpan by the traced wrapper:
method, url, host and path always; request body, its type and the query
string only when defined (object spread of a conditional). -/
def buildRequestAttributes (method url host path : String)
    (requestBody requestBodyType queryParams : Option String) :
    List (String × AttrVal) :=
  [("httpMethod", AttrVal.s method), ("httpUrl", AttrVal.s url),
   ("httpHost", AttrVal.s host), ("httpPath", AttrVal.s path)]
  ++ (match requestBody with
      | some b => [("httpRequestBody", AttrVal.s b)]
      | none => [])
  ++ (match requestBodyType with
      | some t => [("httpRequestBodyType", AttrVal.s t)]
      | none => [])
  ++ (match queryParams with
      | some q => [("httpQueryParams", AttrVal.s q)]
      | none => [])

/-- What the traced wrapper can make the caller observe as a failure: the
error thrown by the original primitive, passed through, or a TypeError
raised by the wrapper itself (reading includes of undefined). -/
inductive WrapErr
  | origErr (e : JSError)
  | wrapperTypeError
deriving DecidableEq, Repr

/-- What one call through the traced wrapper produced: the caller-visible
result, how many spans were created, the attributes the span was created
with, and the operations performed on it afterwards. -/
structure TracedResult where
  result : Except WrapErr JSResponse
  spanCount : Nat
  spanAttrs : List (String × AttrVal)
  events : List SpanEvent
deriving Repr

/-- The traced wrapper installed over globalThis.fetch by patchFetch in
src/patch-fetch.js.  collectorUrl is config.collectorUrl; urlParse,
jsonParses and originalFetch stand in for the host URL constructor,
JSON.parse and the captured original primitive.  Resolves the url (a URL
instance yields undefined, so the includes call throws); bypasses tracing
entirely for collector traffic; otherwise classifies the request, opens a
span via runWithSpan, runs the original primitive, and finalizes the span
from its outcome. -/
def tracedFetch (collectorUrl : String) (urlParse : String → Option URLParts)
    (jsonParses : String → Bool)
    (originalFetch : FetchInput → Option RequestInit → Except JSError JSResponse)
    (input : FetchInput) (init : Option RequestInit) : TracedResult :=
  match resolveInputUrl input with
  | none =>
      { result := Except.error WrapErr.wrapperTypeError, spanCount := 0,
        spanAttrs := [], events := [] }
  | some url =>
    if jsIncludes url collectorUrl then
      match originalFetch input init with
      | Except.ok r =>
          { result := Except.ok r, spanCount := 0, spanAttrs := [], events := [] }
      | Except.error e =>
          { result := Except.error (WrapErr.origErr e), spanCount := 0,
            spanAttrs := [], events := [] }
    else
      match urlParse url with
      | none =>
          { result := Except.error WrapErr.wrapperTypeError, spanCount := 0,
            spanAttrs := [], events := [] }
      | some parts =>
        let method := resolveMethod init input
        let rb := extractRequestBody jsonParses init
        let queryParams :=
          if method.toUpper = "GET" then extractQueryParams urlParse input else none
        let attrs := buildRequestAttributes method url parts.host parts.pathname
          rb.1 rb.2 queryParams
        let callback : BodyOutcome JSError JSResponse :=
          match originalFetch input init with
          | Except.ok res =>
              { result := Except.ok res,
                events := setHttpSpanStatus res ++ respBodyEvents res }
          | Except.error e =>
              { result := Except.error e, events := fetchErrorEvents e }
        let ran := runWithSpan true callback
        { result :=
            match ran.1 with
            | Except.ok r => Except.ok r
            | Except.error e => Except.error (WrapErr.origErr e),
          spanCount := 1, spanAttrs := attrs, events := ran.2 }

/-- The installed fetch slot: the untouched original primitive or a wrapper
around what the slot held when patchFetch ran. -/
inductive FetchImpl
  | original
  | wrapper (inner : FetchImpl)
deriving DecidableEq, Repr

/-- How many wrappers sit around the original primitive. -/
def wrapperDepth : FetchImpl → Nat
  | FetchImpl.original => 0
  | FetchImpl.wrapper f => wrapperDepth f + 1

/-- The process-wide state patchFetch touches: the guard
globalThis.__patchedFetch, the globalThis.fetch slot, and how many times a
reference to the original primitive has been captured. -/
structure FetchGlobals where
  patchedFetch : Bool
  fetchImpl : FetchImpl
  captureCount : Nat
deriving DecidableEq, Repr

/-- patchFetch in src/patch-fetch.js as a transition on the global state:
return immediately when the guard is set; otherwise capture the current
primitive, install the wrapper over it, and set the guard. -/
def patchFetch (g : FetchGlobals) : FetchGlobals :=
  if g.patchedFetch then g
  else
    { patchedFetch := true, fetchImpl := FetchImpl.wrapper g.fetchImpl,
      captureCount := g.captureCount + 1 }

/-- The state before any patching: guard unset, pristine fetch. -/
def freshGlobals : FetchGlobals :=
  { patchedFetch := false, fetchImpl := FetchImpl.original, captureCount := 0 }

/-- Claim C1: with a configured tracer, when the callback body passed to
runWithSpan (or runWithSpanSync) throws, the span status is set to error,
the span is ended exactly once with the end event coming after the status
is finalized, and the exact same exception value is rethrown; on normal
completion the span is also ended exactly once and the body result is
returned.  The final conjunct states that the sync variant behaves
identically. -/
theorem runWithSpan_exception_lifecycle {ε α : Type} (body : BodyOutcome ε α)
    (h : SpanEvent.endSpan ∉ body.events) :
    (∀ e : ε, body.result = Except.error e →
      (runWithSpan true body).1 = Except.error e ∧
      (runWithSpan true body).2
        = body.events ++ [SpanEvent.setStatus SpanStatus.error, SpanEvent.endSpan] ∧
      (runWithSpan true body).2.count SpanEvent.endSpan = 1) ∧
    (∀ v : α, body.result = Except.ok v →
      (runWithSpan true body).1 = Except.ok v ∧
      (runWithSpan true body).2 = body.events ++ [SpanEvent.endSpan] ∧
      (runWithSpan true body).2.count SpanEvent.endSpan = 1) ∧
    runWithSpanSync true body = runWithSpan true body := by
  have hzero : body.events.count SpanEvent.endSpan = 0 := List.count_eq_zero.mpr h
  refine ⟨?_, ?_, ?_⟩
  · intro e he
    simp [runWithSpan, he, List.count_append, hzero]
  · intro v hv
    simp [runWithSpan, hv, List.count_append, hzero]
  · simp [runWithSpan, runWithSpanSync]

/-- Witness for C1 at a concrete throwing body and a concrete returning
body: the error is rethrown, the trace ends with status error then end. -/
theorem runWithSpan_exception_lifecycle_witness :
    (runWithSpan true
        (⟨Except.error "boom", [SpanEvent.setAttr "k" (AttrVal.s "v")]⟩
          : BodyOutcome String Nat)).1 = Except.error "boom" ∧
    (runWithSpan true
        (⟨Except.error "boom", [SpanEvent.setAttr "k" (AttrVal.s "v")]⟩
          : BodyOutcome String Nat)).2
      = [SpanEvent.setAttr "k" (AttrVal.s "v"),
         SpanEvent.setStatus SpanStatus.error, SpanEvent.endSpan] ∧
    (runWithSpan true
        (⟨Except.error "boom", [SpanEvent.setAttr "k" (AttrVal.s "v")]⟩
          : BodyOutcome String Nat)).2.count SpanEvent.endSpan = 1 :=
  (runWithSpan_exception_lifecycle
    (⟨Except.error "boom", [SpanEvent.setAttr "k" (AttrVal.s "v")]⟩
      : BodyOutcome String Nat) (by decide)).1 "boom" rfl

/-- After at least one call starting from the fresh state, the globals are
fixed: guard set, one wrapper over the original, one capture. -/
theorem patchFetch_iterate_succ (k : Nat) :
    patchFetch^[k + 1] freshGlobals
      = ⟨true, FetchImpl.wrapper FetchImpl.original, 1⟩ := by
  induction k with
  | zero => rfl
  | succ k ih =>
    rw [Function.iterate_succ_apply', ih]
    rfl

/-- Claim C3: installing network tracing is idempotent.  Any number of
calls of patchFetch starting from the fresh state leaves exactly one
wrapper installed and the original captured exactly once; a call on an
already guarded state returns it unchanged, and the guard, once set, is
never cleared. -/
theorem patchFetch_idempotent (n : Nat) (hn : 1 ≤ n) :
    patchFetch^[n] freshGlobals
      = ⟨true, FetchImpl.wrapper FetchImpl.original, 1⟩ ∧
    wrapperDepth (patchFetch^[n] freshGlobals).fetchImpl = 1 ∧
    (patchFetch^[n] freshGlobals).captureCount = 1 ∧
    (∀ g : FetchGlobals, patchFetch (patchFetch g) = patchFetch g) ∧
    (∀ g : FetchGlobals, g.patchedFetch = true → patchFetch g = g) ∧
    (∀ g : FetchGlobals, (patchFetch g).patchedFetch = true) := by
  obtain ⟨k, rfl⟩ : ∃ k, n = k + 1 := ⟨n - 1, by omega⟩
  have hit := patchFetch_iterate_succ k
  refine ⟨hit, by rw [hit]; rfl, by rw [hit], ?_, ?_, ?_⟩
  · intro g
    by_cases hg : g.patchedFetch <;> simp [patchFetch, hg]
  · intro g hg
    simp [patchFetch, hg]
  · intro g
    by_cases hg : g.patchedFetch <;> simp [patchFetch, hg]

/-- Witness for C3 at two calls: the state equals the singly patched one. -/
theorem patchFetch_idempotent_witness :
    patchFetch^[2] freshGlobals
      = ⟨true, FetchImpl.wrapper FetchImpl.original, 1⟩ ∧
    wrapperDepth (patchFetch^[2] freshGlobals).fetchImpl = 1 :=
  ⟨(patchFetch_idempotent 2 (by decide)).1,
   (patchFetch_idempotent 2 (by decide)).2.1⟩

/-- Claim C2: when the resolved URL contains the configured collector
endpoint as a substring, the traced wrapper creates no span, performs no
tracing, hands the unchanged input and options to the original primitive,
returns its result on success and rethrows its error unchanged on
failure. -/
theorem tracedFetch_collector_bypass (collectorUrl : String)
    (urlParse : String → Option URLParts) (jsonParses : String → Bool)
    (originalFetch : FetchInput → Option RequestInit → Except JSError JSResponse)
    (input : FetchInput) (init : Option RequestInit) (url : String)
    (hurl : resolveInputUrl input = some url)
    (hcol : jsIncludes url collectorUrl = true) :
    (tracedFetch collectorUrl urlParse jsonParses originalFetch input init).spanCount
      = 0 ∧
    (tracedFetch collectorUrl urlParse jsonParses originalFetch input init).spanAttrs
      = [] ∧
    (tracedFetch collectorUrl urlParse jsonParses originalFetch input init).events
      = [] ∧
    (∀ r, originalFetch input init = Except.ok r →
      (tracedFetch collectorUrl urlParse jsonParses originalFetch input init).result
        = Except.ok r) ∧
    (∀ e, originalFetch input init = Except.error e →
      (tracedFetch collectorUrl urlParse jsonParses originalFetch input init).result
        = Except.error (WrapErr.origErr e)) := by
  unfold tracedFetch
  rw [hurl]
  refine ⟨?_, ?_, ?_, ?_, ?_⟩ <;>
    simp only [hcol, if_true] <;>
    rcases hfetch : originalFetch input init with r | e <;>
    simp [hfetch]

/-- Witness for C2: a call to the collector ingestion URL with a succeeding
original primitive is passed through with zero spans. -/
theorem tracedFetch_collector_bypass_witness :
    (tracedFetch "collector.example.com" (fun _ => none) (fun _ => false)
      (fun _ _ => Except.ok ⟨some 200, "application/json",
        ReadResult.ok "x", ReadResult.ok "x"⟩)
      (FetchInput.str "https://collector.example.com/v1/traces") none).spanCount
      = 0 ∧
    (tracedFetch "collector.example.com" (fun _ => none) (fun _ => false)
      (fun _ _ => Except.ok ⟨some 200, "application/json",
        ReadResult.ok "x", ReadResult.ok "x"⟩)
      (FetchInput.str "https://collector.example.com/v1/traces") none).result
      = Except.ok ⟨some 200, "application/json",
        ReadResult.ok "x", ReadResult.ok "x"⟩ := by
  have h := tracedFetch_collector_bypass "collector.example.com" (fun _ => none)
    (fun _ => false)
    (fun _ _ => Except.ok ⟨some 200, "application/json",
      ReadResult.ok "x", ReadResult.ok "x"⟩)
    (FetchInput.str "https://collector.example.com/v1/traces") none
    "https://collector.example.com/v1/traces" rfl (by decide)
  exact ⟨h.1, h.2.2.2.1 _ rfl⟩

/-- Counterexample to claim C4 as stated: the empty string is a string
request body, yet the classification yields no serialized attribute at all
(options.body is falsy), instead of an attribute equal to the body. -/
theorem extractRequestBody_empty_string_counterexample :
    (extractRequestBody (fun _ => false)
      (some ⟨none, some (JSBody.str "")⟩)).1 = none ∧
    (extractRequestBody (fun _ => false)
      (some ⟨none, some (JSBody.str "")⟩)).1 ≠ some "" := by
  refine ⟨rfl, ?_⟩
  intro h
  simp [extractRequestBody, jsBodyTruthy] at h

/-- Claim C4 as amended: for every nonempty string request body, the
serialized attribute equals the body exactly when its length is at most
2048, and equals the first 2048 characters followed by the literal suffix
...[truncated] when the length exceeds 2048; the classified type is json
exactly when JSON parsing succeeds and string otherwise. -/
theorem extractRequestBody_string_truncation (jsonParses : String → Bool)
    (m : Option String) (s : String) (hne : s ≠ "") :
    (s.length ≤ 2048 →
      extractRequestBody jsonParses (some ⟨m, some (JSBody.str s)⟩)
        = (some s, some (if jsonParses s then "json" else "string"))) ∧
    (2048 < s.length →
      extractRequestBody jsonParses (some ⟨m, some (JSBody.str s)⟩)
        = (some (s.take 2048 ++ "...[truncated]"),
           some (if jsonParses s then "json" else "string"))) := by
  constructor
  · intro hle
    simp [extractRequestBody, jsBodyTruthy, hne, Nat.not_lt.mpr hle]
  · intro hgt
    simp [extractRequestBody, jsBodyTruthy, hne, hgt]

/-- Witness for the amended C4 at the three-character body abc with a
failing JSON parse: the attribute is the body itself and the type is
string. -/
theorem extractRequestBody_string_truncation_witness :
    extractRequestBody (fun _ => false) (some ⟨none, some (JSBody.str "abc")⟩)
      = (some "abc", some "string") :=
  (extractRequestBody_string_truncation (fun _ => false) none "abc"
    (by decide)).1 (by decide)

/-- Counterexample to claim C5 as stated: a URLSearchParams body is not
replaced by a fixed placeholder; the attribute is the encoded payload
itself, so two different payloads give two different attributes. -/
theorem extractRequestBody_urlencoded_counterexample :
    extractRequestBody (fun _ => false)
        (some ⟨none, some (JSBody.urlSearchParams "secret=hunter2")⟩)
      = (some "secret=hunter2", some "urlencoded") ∧
    extractRequestBody (fun _ => false)
        (some ⟨none, some (JSBody.urlSearchParams "a=1")⟩)
      ≠ extractRequestBody (fun _ => false)
        (some ⟨none, some (JSBody.urlSearchParams "b=2")⟩) := by
  refine ⟨rfl, ?_⟩
  intro h
  simp [extractRequestBody, jsBodyTruthy] at h

/-- Claim C5 as amended: multipart form, binary buffer and blob payloads
are replaced by fixed descriptive placeholders with matching type tags,
the blob placeholder embedding the declared MIME type; the form-encoded
URLSearchParams case, however, serializes the payload itself (its
toString encoding) under the urlencoded tag rather than a placeholder. -/
theorem extractRequestBody_nonstring_bodies (jsonParses : String → Bool)
    (m : Option String) (enc mime : String) :
    extractRequestBody jsonParses (some ⟨m, some JSBody.formData⟩)
      = (some "[FormData body]", some "formdata") ∧
    extractRequestBody jsonParses (some ⟨m, some JSBody.arrayBuffer⟩)
      = (some "[ArrayBuffer body]", some "arraybuffer") ∧
    extractRequestBody jsonParses (some ⟨m, some (JSBody.blob mime)⟩)
      = (some ("[Blob: " ++ mime ++ "]"), some "blob") ∧
    extractRequestBody jsonParses (some ⟨m, some (JSBody.urlSearchParams enc)⟩)
      = (some enc, some "urlencoded") := by
  refine ⟨rfl, rfl, rfl, rfl⟩

/-- Counterexample to claim C6 as stated: for a response whose declared
content type is neither application/json nor text/*, the httpResponse and
httpResponseType attributes do not remain unset; the closing
setSpanAttributes call sets them unconditionally, to empty strings. -/
theorem respBodyEvents_binary_counterexample :
    SpanEvent.setAttr "httpResponse" (AttrVal.s "")
      ∈ respBodyEvents ⟨some 200, "image/png", ReadResult.ok "a", ReadResult.ok "b"⟩ ∧
    SpanEvent.setAttr "httpResponseType" (AttrVal.s "")
      ∈ respBodyEvents ⟨some 200, "image/png", ReadResult.ok "a", ReadResult.ok "b"⟩ := by
  decide

/-- Claim C6 as amended: on the request side the httpRequestBody,
httpRequestBodyType and httpQueryParams keys appear in the span attribute
map exactly when the corresponding value is defined; on the response side,
when the content type is neither application/json nor text/*, the
httpResponse and httpResponseType attributes are nevertheless set, both to
the empty string. -/
theorem requestAttributes_optional_keys (method url host path : String)
    (rb rbt qp : Option String) :
    (((buildRequestAttributes method url host path rb rbt qp).map
        Prod.fst).contains "httpRequestBody") = rb.isSome ∧
    (((buildRequestAttributes method url host path rb rbt qp).map
        Prod.fst).contains "httpRequestBodyType") = rbt.isSome ∧
    (((buildRequestAttributes method url host path rb rbt qp).map
        Prod.fst).contains "httpQueryParams") = qp.isSome ∧
    (∀ res : JSResponse,
      jsIncludes res.contentType "application/json" = false →
      jsStartsWith res.contentType "text/" = false →
      respBodyEvents res
        = [SpanEvent.setAttr "httpResponse" (AttrVal.s ""),
           SpanEvent.setAttr "httpResponseType" (AttrVal.s "")]) := by
  refine ⟨?_, ?_, ?_, ?_⟩
  · cases rb <;> cases rbt <;> cases qp <;> simp [buildRequestAttributes]
  · cases rb <;> cases rbt <;> cases qp <;> simp [buildRequestAttributes]
  · cases rb <;> cases rbt <;> cases qp <;> simp [buildRequestAttributes]
  · intro res hjson htext
    simp [respBodyEvents, respBodyAttrs, setHTTPResponseBody, hjson, htext]

/-- Witness for the amended C6: concrete optional fields on the request
side and a concrete binary response on the response side. -/
theorem requestAttributes_optional_keys_witness :
    (((buildRequestAttributes "GET" "https://a.example/x" "a.example" "/x"
        (some "b") none none).map Prod.fst).contains "httpRequestBody") = true ∧
    (((buildRequestAttributes "GET" "https://a.example/x" "a.example" "/x"
        (some "b") none none).map Prod.fst).contains "httpQueryParams") = false ∧
    respBodyEvents ⟨some 200, "image/png", ReadResult.ok "a", ReadResult.ok "b"⟩
      = [SpanEvent.setAttr "httpResponse" (AttrVal.s ""),
         SpanEvent.setAttr "httpResponseType" (AttrVal.s "")] :=
  ⟨(requestAttributes_optional_keys "GET" "https://a.example/x" "a.example" "/x"
      (some "b") none none).1,
   (requestAttributes_optional_keys "GET" "https://a.example/x" "a.example" "/x"
      (some "b") none none).2.2.1,
   (requestAttributes_optional_keys "GET" "https://a.example/x" "a.example" "/x"
      (some "b") none none).2.2.2
     ⟨some 200, "image/png", ReadResult.ok "a", ReadResult.ok "b"⟩
     (by decide) (by decide)⟩

/-- Claim C7: when the original primitive rejects inside the traced
wrapper, the span receives an httpError attribute equal to the error
message (the stringified value when the message is absent or empty), an
httpStatusCode attribute equal to the carried status (500 when none is
carried), the span status is marked error, and the original error value is
rethrown unchanged. -/
theorem tracedFetch_error_annotation (collectorUrl : String)
    (urlParse : String → Option URLParts) (jsonParses : String → Bool)
    (originalFetch : FetchInput → Option RequestInit → Except JSError JSResponse)
    (input : FetchInput) (init : Option RequestInit) (url : String)
    (parts : URLParts) (e : JSError)
    (hurl : resolveInputUrl input = some url)
    (hcol : jsIncludes url collectorUrl = false)
    (hparse : urlParse url = some parts)
    (herr : originalFetch input init = Except.error e) :
    (tracedFetch collectorUrl urlParse jsonParses originalFetch input init).result
      = Except.error (WrapErr.origErr e) ∧
    SpanEvent.setAttr "httpError" (AttrVal.s (fetchErrorHttpError e))
      ∈ (tracedFetch collectorUrl urlParse jsonParses originalFetch input init).events ∧
    SpanEvent.setAttr "httpStatusCode" (AttrVal.n (fetchErrorHttpStatus e))
      ∈ (tracedFetch collectorUrl urlParse jsonParses originalFetch input init).events ∧
    SpanEvent.setStatus SpanStatus.error
      ∈ (tracedFetch collectorUrl urlParse jsonParses originalFetch input init).events ∧
    (∀ m, e.message = some m → m ≠ "" → fetchErrorHttpError e = m) ∧
    (jsMsgTruthy e = false → fetchErrorHttpError e = e.stringified) ∧
    (∀ n, e.status = some n → n ≠ 0 → fetchErrorHttpStatus e = n) ∧
    (jsStatusTruthy e = false → fetchErrorHttpStatus e = 500) := by
  have hres :
      tracedFetch collectorUrl urlParse jsonParses originalFetch input init
        = { result := Except.error (WrapErr.origErr e), spanCount := 1,
            spanAttrs := buildRequestAttributes (resolveMethod init input) url
              parts.host parts.pathname
              (extractRequestBody jsonParses init).1
              (extractRequestBody jsonParses init).2
              (if (resolveMethod init input).toUpper = "GET" then
                extractQueryParams urlParse input else none),
            events := fetchErrorEvents e
              ++ [SpanEvent.setStatus SpanStatus.error, SpanEvent.endSpan] } := by
    unfold tracedFetch
    rw [hurl]
    simp only [hcol, if_false, Bool.false_eq_true]
    rw [hparse]
    simp [herr, runWithSpan]
  refine ⟨?_, ?_, ?_, ?_, ?_, ?_, ?_, ?_⟩
  · rw [hres]
  · rw [hres]; simp [fetchErrorEvents]
  · rw [hres]; simp [fetchErrorEvents]
  · rw [hres]; simp [fetchErrorEvents]
  · intro m hm hne
    simp [fetchErrorHttpError, hm, hne]
  · intro hfalse
    unfold fetchErrorHttpError
    unfold jsMsgTruthy at hfalse
    match hmsg : e.message with
    | none => simp
    | some m =>
      rw [hmsg] at hfalse
      have hm : m = "" := by simpa using hfalse
      simp [hm]
  · intro n hn hne
    simp [fetchErrorHttpStatus, hn, hne]
  · intro hfalse
    unfold fetchErrorHttpStatus
    unfold jsStatusTruthy at hfalse
    match hst : e.status with
    | none => simp
    | some n =>
      rw [hst] at hfalse
      have hn0 : n = 0 := by simpa using hfalse
      simp [hn0]

/-- Witness for C7: a connection error with no message field and no status
field; the error is rethrown and the span is annotated and marked error. -/
theorem tracedFetch_error_annotation_witness :
    (tracedFetch "collector.example.com"
      (fun _ => some ⟨"api.example.com", "/users", ""⟩) (fun _ => false)
      (fun _ _ => Except.error ⟨none, none, "TypeError: Failed to fetch"⟩)
      (FetchInput.str "https://api.example.com/users") none).result
      = Except.error (WrapErr.origErr ⟨none, none, "TypeError: Failed to fetch"⟩) ∧
    SpanEvent.setAttr "httpError"
        (AttrVal.s (fetchErrorHttpError ⟨none, none, "TypeError: Failed to fetch"⟩))
      ∈ (tracedFetch "collector.example.com"
          (fun _ => some ⟨"api.example.com", "/users", ""⟩) (fun _ => false)
          (fun _ _ => Except.error ⟨none, none, "TypeError: Failed to fetch"⟩)
          (FetchInput.str "https://api.example.com/users") none).events ∧
    SpanEvent.setAttr "httpStatusCode"
        (AttrVal.n (fetchErrorHttpStatus ⟨none, none, "TypeError: Failed to fetch"⟩))
      ∈ (tracedFetch "collector.example.com"
          (fun _ => some ⟨"api.example.com", "/users", ""⟩) (fun _ => false)
          (fun _ _ => Except.error ⟨none, none, "TypeError: Failed to fetch"⟩)
          (FetchInput.str "https://api.example.com/users") none).events ∧
    fetchErrorHttpError ⟨none, none, "TypeError: Failed to fetch"⟩
      = "TypeError: Failed to fetch" ∧
    fetchErrorHttpStatus ⟨none, none, "TypeError: Failed to fetch"⟩ = 500 := by
  have h := tracedFetch_error_annotation "collector.example.com"
    (fun _ => some ⟨"api.example.com", "/users", ""⟩) (fun _ => false)
    (fun _ _ => Except.error ⟨none, none, "TypeError: Failed to fetch"⟩)
    (FetchInput.str "https://api.example.com/users") none
    "https://api.example.com/users" ⟨"api.example.com", "/users", ""⟩
    ⟨none, none, "TypeError: Failed to fetch"⟩
    rfl (by decide) rfl rfl
  exact ⟨h.1, h.2.1, h.2.2.1, h.2.2.2.2.2.1 (by decide), h.2.2.2.2.2.2.2 (by decide)⟩

/-- Claim C8: response-body classification reads only freshly cloned
streams — every stream id it consumes is strictly greater than the id of
the original response, so the original body is never read and remains
fully readable — and every read or parse failure is contained: for any
combination of read outcomes the traced call still returns the original
response object to the caller. -/
theorem setHTTPResponseBody_reads_only_clones (res : JSResponse) (origId : Nat) :
    ((setHTTPResponseBody res origId).2.all (fun i => decide (origId < i))) = true ∧
    ((setHTTPResponseBody res origId).2.contains origId) = false ∧
    (∀ (collectorUrl : String) (urlParse : String → Option URLParts)
       (jsonParses : String → Bool)
       (originalFetch : FetchInput → Option RequestInit → Except JSError JSResponse)
       (input : FetchInput) (init : Option RequestInit) (url : String)
       (parts : URLParts),
      resolveInputUrl input = some url →
      jsIncludes url collectorUrl = false →
      urlParse url = some parts →
      originalFetch input init = Except.ok res →
      (tracedFetch collectorUrl urlParse jsonParses originalFetch input init).result
        = Except.ok res) := by
  refine ⟨?_, ?_, ?_⟩
  · unfold setHTTPResponseBody
    split
    · rcases res.jsonRead with s | _
      · simp
      · rcases res.textRead with t | _ <;> simp
    · split
      · rcases h1 : res.textRead with t | _
        · simp
        · simp
      · simp
  · unfold setHTTPResponseBody
    split
    · rcases res.jsonRead with s | _
      · simp
      · rcases res.textRead with t | _ <;> simp
    · split
      · rcases h1 : res.textRead with t | _
        · simp
        · simp
      · simp
  · intro collectorUrl urlParse jsonParses originalFetch input init url parts
      hurl hcol hparse hok
    unfold tracedFetch
    rw [hurl]
    simp only [hcol, if_false, Bool.false_eq_true]
    rw [hparse]
    simp [hok, runWithSpan]

/-- Witness for C8 at a response whose JSON and text reads both fail: only
clone streams (ids above the original) are consumed and the caller still
receives the original response. -/
theorem setHTTPResponseBody_reads_only_clones_witness :
    ((setHTTPResponseBody
        ⟨some 200, "application/json", ReadResult.err, ReadResult.err⟩ 0).2.all
      (fun i => decide (0 < i))) = true ∧
    ((setHTTPResponseBody
        ⟨some 200, "application/json", ReadResult.err, ReadResult.err⟩ 0).2.contains 0)
      = false ∧
    (tracedFetch "collector.example.com"
      (fun _ => some ⟨"api.example.com", "/users", ""⟩) (fun _ => false)
      (fun _ _ => Except.ok ⟨some 200, "application/json",
        ReadResult.err, ReadResult.err⟩)
      (FetchInput.str "https://api.example.com/users") none).result
      = Except.ok ⟨some 200, "application/json", ReadResult.err, ReadResult.err⟩ := by
  have h := setHTTPResponseBody_reads_only_clones
    ⟨some 200, "application/json", ReadResult.err, ReadResult.err⟩ 0
  exact ⟨h.1, h.2.1,
    h.2.2 "collector.example.com"
      (fun _ => some ⟨"api.example.com", "/users", ""⟩) (fun _ => false)
      (fun _ _ => Except.ok ⟨some 200, "application/json",
        ReadResult.err, ReadResult.err⟩)
      (FetchInput.str "https://api.example.com/users") none
      "https://api.example.com/users" ⟨"api.example.com", "/users", ""⟩
      rfl (by decide) rfl rfl⟩

/-- Counterexample to claim C9 as stated: with a URL instance as input the
wrapper itself throws a TypeError (input.url is undefined, so the includes
call on it fails), although at that very input the original primitive
succeeds. -/
theorem tracedFetch_url_object_counterexample :
    (tracedFetch "collector.example.com"
      (fun _ => some ⟨"api.example.com", "/users", ""⟩) (fun _ => false)
      (fun _ _ => Except.ok ⟨some 200, "text/plain",
        ReadResult.ok "x", ReadResult.ok "x"⟩)
      (FetchInput.urlObject "https://api.example.com/users") none).result
      = Except.error WrapErr.wrapperTypeError ∧
    (fun (_ : FetchInput) (_ : Option RequestInit) =>
        (Except.ok ⟨some 200, "text/plain", ReadResult.ok "x", ReadResult.ok "x"⟩
          : Except JSError JSResponse))
      (FetchInput.urlObject "https://api.example.com/users") none
      = Except.ok ⟨some 200, "text/plain", ReadResult.ok "x", ReadResult.ok "x"⟩ :=
  ⟨rfl, rfl⟩

/-- Claim C9 as amended: for string inputs and request-like inputs that
expose a url field, with a parseable URL, the traced wrapper never throws
on its own: the caller-visible outcome is exactly the outcome of the
original primitive on the unchanged input and options.  A URL instance
input, which has no url field, is outside this contract: the wrapper then
throws a TypeError the original primitive would not throw. -/
theorem tracedFetch_contract_amended (collectorUrl : String)
    (urlParse : String → Option URLParts) (jsonParses : String → Bool)
    (originalFetch : FetchInput → Option RequestInit → Except JSError JSResponse)
    (input : FetchInput) (init : Option RequestInit) (url : String)
    (hurl : resolveInputUrl input = some url)
    (hparse : jsIncludes url collectorUrl = false → (urlParse url).isSome) :
    (tracedFetch collectorUrl urlParse jsonParses originalFetch input init).result
      = (match originalFetch input init with
         | Except.ok r => Except.ok r
         | Except.error e => Except.error (WrapErr.origErr e)) := by
  unfold tracedFetch
  rw [hurl]
  by_cases hcol : jsIncludes url collectorUrl = true
  · simp only [hcol, if_true]
    rcases originalFetch input init with r | e <;> simp
  · have hcol' : jsIncludes url collectorUrl = false := by
      revert hcol
      cases jsIncludes url collectorUrl <;> simp
    obtain ⟨parts, hp⟩ := Option.isSome_iff_exists.mp (hparse hcol')
    simp only [hcol', if_false, Bool.false_eq_true]
    rw [hp]
    rcases originalFetch input init with r | e <;> simp [runWithSpan]

/-- Witness for the amended C9: a plain string URL with a failing original
primitive; the wrapper rethrows exactly that failure. -/
theorem tracedFetch_contract_amended_witness :
    (tracedFetch "collector.example.com"
      (fun _ => some ⟨"api.example.com", "/users", ""⟩) (fun _ => false)
      (fun _ _ => Except.error ⟨some "boom", some 502, "Error: boom"⟩)
      (FetchInput.str "https://api.example.com/users") none).result
      = Except.error (WrapErr.origErr ⟨some "boom", some 502, "Error: boom"⟩) :=
  tracedFetch_contract_amended "collector.example.com"
    (fun _ => some ⟨"api.example.com", "/users", ""⟩) (fun _ => false)
    (fun _ _ => Except.error ⟨some "boom", some 502, "Error: boom"⟩)
    (FetchInput.str "https://api.example.com/users") none
    "https://api.example.com/users" rfl (fun _ => rfl)

/-- Claim C10: an empty-string body, like an absent body or absent options,
is falsy and classified as if no body were supplied: both classification
fields come back undefined, and consequently neither the httpRequestBody
nor the httpRequestBodyType key appears among the span attributes. -/
theorem extractRequestBody_empty_body_absent (jsonParses : String → Bool)
    (m : Option String) (method url host path : String) (qp : Option String) :
    extractRequestBody jsonParses (some ⟨m, some (JSBody.str "")⟩) = (none, none) ∧
    extractRequestBody jsonParses (some ⟨m, none⟩) = (none, none) ∧
    extractRequestBody jsonParses none = (none, none) ∧
    (((buildRequestAttributes method url host path
        (extractRequestBody jsonParses (some ⟨m, some (JSBody.str "")⟩)).1
        (extractRequestBody jsonParses (some ⟨m, some (JSBody.str "")⟩)).2 qp).map
          Prod.fst).contains "httpRequestBody") = false ∧
    (((buildRequestAttributes method url host path
        (extractRequestBody jsonParses (some ⟨m, some (JSBody.str "")⟩)).1
        (extractRequestBody jsonParses (some ⟨m, some (JSBody.str "")⟩)).2 qp).map
          Prod.fst).contains "httpRequestBodyType") = false := by
  refine ⟨rfl, rfl, rfl, ?_, ?_⟩ <;>
    cases qp <;>
    simp [extractRequestBody, jsBodyTruthy, buildRequestAttributes]
